import Mathlib

/-! Register and block layouts of the Cortex-M core peripheral headers.

A shallow embedding of `on_host/svd2ghidrac/cpu_headers/CM0plus.h` and
`on_host/svd2ghidrac/cpu_headers/CM3.h`.  Both headers are packed
(`#pragma pack(push,1)`) C type definitions.  Every `typedef struct` is either

* a *register struct*: all members are bit-fields `uint32_t NAME : WIDTH;`, or
* a *block struct*: all members are whole registers `TYPE NAME;`, register
  arrays `TYPE NAME[COUNT];` or filler words `uint32_t reservedN;` /
  `uint32_t reservedN[COUNT];`.

The structs are transcribed member by member, in declaration order, under the
names they have in the headers; the two headers live in the namespaces
`CM0plus` and `CM3`.
-/

namespace Svd2GhidraC

/-! ## Data model of the headers -/

/-- A bit-field member `uint32_t name : width;` of a register struct. -/
structure BitField where
  name : String
  width : Nat
  deriving DecidableEq

/-- A register struct `typedef struct { bit-fields } name;`. -/
structure RegisterStruct where
  name : String
  fields : List BitField
  deriving DecidableEq

/-- A member of a block struct: `ty name;` when `count` is `none`,
`ty name[k];` when `count` is `some k`. -/
structure BlockEntry where
  ty : String
  name : String
  count : Option Nat
  deriving DecidableEq

/-- A block struct `typedef struct { entries } name;`.  `base` is the address
written in the comment that opens the struct body (CM0plus.h only). -/
structure BlockStruct where
  name : String
  base : Option Nat
  entries : List BlockEntry
  deriving DecidableEq

namespace CM0plus

/-- Auxiliary Control Register -/
def SCB_ACTLR : RegisterStruct :=
  ⟨"SCB_ACTLR",
   [⟨"reserved_tail", 32⟩]⟩

/-- CPUID Base Register -/
def SCB_CPUID : RegisterStruct :=
  ⟨"SCB_CPUID",
   [⟨"Revision", 4⟩, ⟨"PartNo", 12⟩, ⟨"Constant", 4⟩, ⟨"Variant", 4⟩, ⟨"Implementer", 8⟩]⟩

/-- Interrupt Control and State Register -/
def SCB_ICSR : RegisterStruct :=
  ⟨"SCB_ICSR",
   [⟨"VECTACTIVE", 9⟩, ⟨"reserved0", 3⟩, ⟨"VECTPENDING", 9⟩, ⟨"reserved1", 1⟩,
    ⟨"ISRPENDING", 1⟩, ⟨"ISRPREEMPT", 1⟩, ⟨"reserved2", 1⟩, ⟨"PENDSTCLR", 1⟩, ⟨"PENDSTSET", 1⟩,
    ⟨"PENDSVCLR", 1⟩, ⟨"PENDSVSET", 1⟩, ⟨"reserved3", 2⟩, ⟨"NMIPENDSET", 1⟩]⟩

/-- Vector Table Offset Register -/
def SCB_VTOR : RegisterStruct :=
  ⟨"SCB_VTOR",
   [⟨"reserved0", 7⟩, ⟨"TBLOFF", 25⟩]⟩

/-- Application Interrupt and Reset Control Register -/
def SCB_AIRCR : RegisterStruct :=
  ⟨"SCB_AIRCR",
   [⟨"reserved0", 1⟩, ⟨"VECTCLRACTIVE", 1⟩, ⟨"SYSRESETREQ", 1⟩, ⟨"reserved0", 12⟩,
    ⟨"ENDIANESS", 1⟩, ⟨"VECTKEY", 16⟩]⟩

/-- System Control Register -/
def SCB_SCR : RegisterStruct :=
  ⟨"SCB_SCR",
   [⟨"reserved0", 1⟩, ⟨"SLEEONEXIT", 1⟩, ⟨"SLEEPDEEP", 1⟩, ⟨"reserved1", 1⟩, ⟨"SEVONPEND", 1⟩,
    ⟨"reserved_tail", 27⟩]⟩

/-- Configuration and Control Register -/
def SCB_CCR : RegisterStruct :=
  ⟨"SCB_CCR",
   [⟨"reserved0", 3⟩, ⟨"UNALIGN_TRP", 1⟩, ⟨"reserved1", 5⟩, ⟨"STKALIGN", 1⟩,
    ⟨"reserved_tail", 22⟩]⟩

/-- System Handler Priority Register 2 -/
def SCB_SHPR2 : RegisterStruct :=
  ⟨"SCB_SHPR2",
   [⟨"reserved0", 30⟩, ⟨"PRI_11", 2⟩]⟩

/-- System Handler Priority Register 3 -/
def SCB_SHPR3 : RegisterStruct :=
  ⟨"SCB_SHPR3",
   [⟨"reserved0", 22⟩, ⟨"PRI_14", 2⟩, ⟨"reserved1", 6⟩, ⟨"PRI_15", 2⟩]⟩

/-- System Handler Control and State Register -/
def SCB_SHCSR : RegisterStruct :=
  ⟨"SCB_SHCSR",
   [⟨"reserved0", 15⟩, ⟨"SVCALLPENDED", 1⟩, ⟨"reserved_tail", 16⟩]⟩

/-- Debug Fault Status Register -/
def SCB_DFSR : RegisterStruct :=
  ⟨"SCB_DFSR",
   [⟨"HALTED", 1⟩, ⟨"BKPT", 1⟩, ⟨"DWTTRAP", 1⟩, ⟨"VCATCH", 1⟩, ⟨"EXTERNAL", 1⟩,
    ⟨"reserved_tail", 27⟩]⟩

/-- System Control Block, first part -/
def SCBpart0 : BlockStruct :=
  ⟨"SCBpart0", some 0xE000E008,
   [⟨"SCB_ACTLR", "ACTLR", none⟩]⟩

/-- System Control Block, second part -/
def SCBpart1 : BlockStruct :=
  ⟨"SCBpart1", some 0xE000ED00,
   [⟨"SCB_CPUID", "CPUID", none⟩, ⟨"SCB_ICSR", "ICSR", none⟩, ⟨"SCB_VTOR", "VTOR", none⟩,
    ⟨"SCB_AIRCR", "AIRCR", none⟩, ⟨"SCB_SCR", "SCR", none⟩, ⟨"SCB_CCR", "CCR", none⟩,
    ⟨"uint32_t", "reserved0", none⟩, ⟨"SCB_SHPR2", "SHPR2", none⟩,
    ⟨"SCB_SHPR3", "SHPR3", none⟩, ⟨"SCB_SHCSR", "SHCSR", none⟩, ⟨"SCB_DFSR", "DFSR", none⟩]⟩

/-- SysTick Control and Status Register -/
def SYST_CSR : RegisterStruct :=
  ⟨"SYST_CSR",
   [⟨"ENABLE", 1⟩, ⟨"TICKINT", 1⟩, ⟨"CLKSOURCE", 1⟩, ⟨"reserved0", 13⟩, ⟨"COUNTFLAG", 1⟩,
    ⟨"reserved_tail", 15⟩]⟩

/-- SysTick Reload Value Register -/
def SYST_RVR : RegisterStruct :=
  ⟨"SYST_RVR",
   [⟨"RELOAD", 24⟩, ⟨"reserved_tail", 8⟩]⟩

/-- SysTick Current Value Register -/
def SYST_CVR : RegisterStruct :=
  ⟨"SYST_CVR",
   [⟨"CURRENT", 24⟩, ⟨"reserved_tail", 8⟩]⟩

/-- SysTick Calibration Value Register -/
def SYST_CALIB : RegisterStruct :=
  ⟨"SYST_CALIB",
   [⟨"TENMS", 24⟩, ⟨"reserved0", 6⟩, ⟨"SKEW", 1⟩, ⟨"NOREF", 1⟩]⟩

/-- System Timer (SysTick) -/
def SYST : BlockStruct :=
  ⟨"SYST", some 0xE000E010,
   [⟨"SYST_CSR", "CSR", none⟩, ⟨"SYST_RVR", "RVR", none⟩, ⟨"SYST_CVR", "CVR", none⟩,
    ⟨"SYST_CALIB", "CALIB", none⟩]⟩

/-- Interrupt Set-Enable Register -/
def NVIC_ISER : RegisterStruct :=
  ⟨"NVIC_ISER",
   [⟨"SETENA0", 1⟩, ⟨"SETENA1", 1⟩, ⟨"SETENA2", 1⟩, ⟨"SETENA3", 1⟩, ⟨"SETENA4", 1⟩,
    ⟨"SETENA5", 1⟩, ⟨"SETENA6", 1⟩, ⟨"SETENA7", 1⟩, ⟨"SETENA8", 1⟩, ⟨"SETENA9", 1⟩,
    ⟨"SETENA10", 1⟩, ⟨"SETENA11", 1⟩, ⟨"SETENA12", 1⟩, ⟨"SETENA13", 1⟩, ⟨"SETENA14", 1⟩,
    ⟨"SETENA15", 1⟩, ⟨"SETENA16", 1⟩, ⟨"SETENA17", 1⟩, ⟨"SETENA18", 1⟩, ⟨"SETENA19", 1⟩,
    ⟨"SETENA20", 1⟩, ⟨"SETENA21", 1⟩, ⟨"SETENA22", 1⟩, ⟨"SETENA23", 1⟩, ⟨"SETENA24", 1⟩,
    ⟨"SETENA25", 1⟩, ⟨"SETENA26", 1⟩, ⟨"SETENA27", 1⟩, ⟨"SETENA28", 1⟩, ⟨"SETENA29", 1⟩,
    ⟨"SETENA30", 1⟩, ⟨"SETENA31", 1⟩]⟩

/-- Interrupt Clear-Enable Register -/
def NVIC_ICER : RegisterStruct :=
  ⟨"NVIC_ICER",
   [⟨"CLRENA0", 1⟩, ⟨"CLRENA1", 1⟩, ⟨"CLRENA2", 1⟩, ⟨"CLRENA3", 1⟩, ⟨"CLRENA4", 1⟩,
    ⟨"CLRENA5", 1⟩, ⟨"CLRENA6", 1⟩, ⟨"CLRENA7", 1⟩, ⟨"CLRENA8", 1⟩, ⟨"CLRENA9", 1⟩,
    ⟨"CLRENA10", 1⟩, ⟨"CLRENA11", 1⟩, ⟨"CLRENA12", 1⟩, ⟨"CLRENA13", 1⟩, ⟨"CLRENA14", 1⟩,
    ⟨"CLRENA15", 1⟩, ⟨"CLRENA16", 1⟩, ⟨"CLRENA17", 1⟩, ⟨"CLRENA18", 1⟩, ⟨"CLRENA19", 1⟩,
    ⟨"CLRENA20", 1⟩, ⟨"CLRENA21", 1⟩, ⟨"CLRENA22", 1⟩, ⟨"CLRENA23", 1⟩, ⟨"CLRENA24", 1⟩,
    ⟨"CLRENA25", 1⟩, ⟨"CLRENA26", 1⟩, ⟨"CLRENA27", 1⟩, ⟨"CLRENA28", 1⟩, ⟨"CLRENA29", 1⟩,
    ⟨"CLRENA30", 1⟩, ⟨"CLRENA31", 1⟩]⟩

/-- Interrupt Set-Pending Register -/
def NVIC_ISPR : RegisterStruct :=
  ⟨"NVIC_ISPR",
   [⟨"SETPEND0", 1⟩, ⟨"SETPEND1", 1⟩, ⟨"SETPEND2", 1⟩, ⟨"SETPEND3", 1⟩, ⟨"SETPEND4", 1⟩,
    ⟨"SETPEND5", 1⟩, ⟨"SETPEND6", 1⟩, ⟨"SETPEND7", 1⟩, ⟨"SETPEND8", 1⟩, ⟨"SETPEND9", 1⟩,
    ⟨"SETPEND10", 1⟩, ⟨"SETPEND11", 1⟩, ⟨"SETPEND12", 1⟩, ⟨"SETPEND13", 1⟩, ⟨"SETPEND14", 1⟩,
    ⟨"SETPEND15", 1⟩, ⟨"SETPEND16", 1⟩, ⟨"SETPEND17", 1⟩, ⟨"SETPEND18", 1⟩, ⟨"SETPEND19", 1⟩,
    ⟨"SETPEND20", 1⟩, ⟨"SETPEND21", 1⟩, ⟨"SETPEND22", 1⟩, ⟨"SETPEND23", 1⟩, ⟨"SETPEND24", 1⟩,
    ⟨"SETPEND25", 1⟩, ⟨"SETPEND26", 1⟩, ⟨"SETPEND27", 1⟩, ⟨"SETPEND28", 1⟩, ⟨"SETPEND29", 1⟩,
    ⟨"SETPEND30", 1⟩, ⟨"SETPEND31", 1⟩]⟩

/-- Interrupt Clear-Pending Register -/
def NVIC_ICPR : RegisterStruct :=
  ⟨"NVIC_ICPR",
   [⟨"CLRPEND0", 1⟩, ⟨"CLRPEND1", 1⟩, ⟨"CLRPEND2", 1⟩, ⟨"CLRPEND3", 1⟩, ⟨"CLRPEND4", 1⟩,
    ⟨"CLRPEND5", 1⟩, ⟨"CLRPEND6", 1⟩, ⟨"CLRPEND7", 1⟩, ⟨"CLRPEND8", 1⟩, ⟨"CLRPEND9", 1⟩,
    ⟨"CLRPEND10", 1⟩, ⟨"CLRPEND11", 1⟩, ⟨"CLRPEND12", 1⟩, ⟨"CLRPEND13", 1⟩, ⟨"CLRPEND14", 1⟩,
    ⟨"CLRPEND15", 1⟩, ⟨"CLRPEND16", 1⟩, ⟨"CLRPEND17", 1⟩, ⟨"CLRPEND18", 1⟩, ⟨"CLRPEND19", 1⟩,
    ⟨"CLRPEND20", 1⟩, ⟨"CLRPEND21", 1⟩, ⟨"CLRPEND22", 1⟩, ⟨"CLRPEND23", 1⟩, ⟨"CLRPEND24", 1⟩,
    ⟨"CLRPEND25", 1⟩, ⟨"CLRPEND26", 1⟩, ⟨"CLRPEND27", 1⟩, ⟨"CLRPEND28", 1⟩, ⟨"CLRPEND29", 1⟩,
    ⟨"CLRPEND30", 1⟩, ⟨"CLRPEND31", 1⟩]⟩

/-- Interrupt Priority Register -/
def NVIC_IPR : RegisterStruct :=
  ⟨"NVIC_IPR",
   [⟨"reserved0", 6⟩, ⟨"IP0", 2⟩, ⟨"reserved1", 6⟩, ⟨"IP1", 2⟩, ⟨"reserved2", 6⟩, ⟨"IP2", 2⟩,
    ⟨"reserved3", 6⟩, ⟨"IP3", 2⟩]⟩

/-- Nested Vectored Interrupt Controller, first part -/
def NVICpart0 : BlockStruct :=
  ⟨"NVICpart0", some 0xE000E100,
   [⟨"NVIC_ISER", "ISER", none⟩, ⟨"uint32_t", "reserved0", some 31⟩,
    ⟨"NVIC_ICER", "ICER", none⟩, ⟨"uint32_t", "reserved1", some 31⟩,
    ⟨"NVIC_ISPR", "ISPR", none⟩, ⟨"uint32_t", "reserved2", some 31⟩,
    ⟨"NVIC_ICPR", "ICPR", none⟩, ⟨"uint32_t", "reserved3", some 95⟩, ⟨"NVIC_IPR", "IPR", some 8⟩]⟩

/-- MPU Type Register -/
def MPU_TYPE : RegisterStruct :=
  ⟨"MPU_TYPE",
   [⟨"SEPARATE", 1⟩, ⟨"reserved0", 7⟩, ⟨"DREGION", 8⟩, ⟨"IREGION", 8⟩, ⟨"reserved_tail", 8⟩]⟩

/-- MPU Control Register -/
def MPU_CTRL : RegisterStruct :=
  ⟨"MPU_CTRL",
   [⟨"ENABLE", 1⟩, ⟨"HFNMIENA", 1⟩, ⟨"PRIVDEFENA", 1⟩, ⟨"reserved_tail", 29⟩]⟩

/-- MPU Region Number Register -/
def MPU_RNR : RegisterStruct :=
  ⟨"MPU_RNR",
   [⟨"REGION", 8⟩, ⟨"reserved_tail", 24⟩]⟩

/-- MPU Region Base Address Register -/
def MPU_RBAR : RegisterStruct :=
  ⟨"MPU_RBAR",
   [⟨"REGION", 4⟩, ⟨"VALID", 1⟩, ⟨"reserved0", 3⟩, ⟨"ADDR", 24⟩]⟩

/-- MPU Region Attribute and Size Register -/
def MPU_RASR : RegisterStruct :=
  ⟨"MPU_RASR",
   [⟨"ENABLE", 1⟩, ⟨"SIZE", 5⟩, ⟨"reserved0", 2⟩, ⟨"SRD", 8⟩, ⟨"B", 1⟩, ⟨"C", 1⟩, ⟨"S", 1⟩,
    ⟨"TEX", 3⟩, ⟨"reserved1", 2⟩, ⟨"AP", 3⟩, ⟨"reserved2", 1⟩, ⟨"XN", 1⟩, ⟨"reserved_tail", 3⟩]⟩

/-- Memory Protection Unit -/
def MPU : BlockStruct :=
  ⟨"MPU", some 0xE000ED90,
   [⟨"MPU_TYPE", "TYPE", none⟩, ⟨"MPU_CTRL", "CTRL", none⟩, ⟨"MPU_RNR", "RNR", none⟩,
    ⟨"MPU_RBAR", "RBAR", none⟩, ⟨"MPU_RASR", "RASR", none⟩]⟩

/-- Register structs of the header, in declaration order. -/
def registers : List RegisterStruct :=
  [SCB_ACTLR, SCB_CPUID, SCB_ICSR, SCB_VTOR, SCB_AIRCR, SCB_SCR, SCB_CCR, SCB_SHPR2, SCB_SHPR3,
   SCB_SHCSR, SCB_DFSR, SYST_CSR, SYST_RVR, SYST_CVR, SYST_CALIB, NVIC_ISER, NVIC_ICER,
   NVIC_ISPR, NVIC_ICPR, NVIC_IPR, MPU_TYPE, MPU_CTRL, MPU_RNR, MPU_RBAR, MPU_RASR]

/-- Block structs of the header, in declaration order. -/
def blocks : List BlockStruct :=
  [SCBpart0, SCBpart1, SYST, NVICpart0, MPU]

end CM0plus

namespace CM3

/-- Auxiliary Control Register -/
def SCB_ACTLR : RegisterStruct :=
  ⟨"SCB_ACTLR",
   [⟨"DISMCYCINT", 1⟩, ⟨"DISDEFWBUF", 1⟩, ⟨"DISFOLD", 1⟩, ⟨"reserved_tail", 29⟩]⟩

/-- CPUID Base Register -/
def SCB_CPUID : RegisterStruct :=
  ⟨"SCB_CPUID",
   [⟨"Revision", 4⟩, ⟨"PartNo", 12⟩, ⟨"Constant", 4⟩, ⟨"Variant", 4⟩, ⟨"Implementer", 8⟩]⟩

/-- Interrupt Control and State Register -/
def SCB_ICSR : RegisterStruct :=
  ⟨"SCB_ICSR",
   [⟨"VECTACTIVE", 9⟩, ⟨"reserved0", 2⟩, ⟨"RETTOBASE", 1⟩, ⟨"VECTPENDING", 10⟩,
    ⟨"ISRPENDING", 1⟩, ⟨"reserved_for_debug", 1⟩, ⟨"reserved1", 1⟩, ⟨"PENDSTCLR", 1⟩,
    ⟨"PENDSTSET", 1⟩, ⟨"PENDSVCLR", 1⟩, ⟨"PENDSVSET", 1⟩, ⟨"reserved_tail", 3⟩]⟩

/-- Vector Table Offset Register -/
def SCB_VTOR : RegisterStruct :=
  ⟨"SCB_VTOR",
   [⟨"reserved0", 7⟩, ⟨"TBLOFF", 23⟩, ⟨"reserved_tail", 2⟩]⟩

/-- Application Interrupt and Reset Control Register -/
def SCB_AIRCR : RegisterStruct :=
  ⟨"SCB_AIRCR",
   [⟨"VECTRESET", 1⟩, ⟨"VECTCLRACTIVE", 1⟩, ⟨"SYSRESETREQ", 1⟩, ⟨"reserved0", 5⟩,
    ⟨"PRIGROUP", 3⟩, ⟨"reserved1", 4⟩, ⟨"ENDIANESS", 1⟩, ⟨"VECTKEY", 16⟩]⟩

/-- System Control Register -/
def SCB_SCR : RegisterStruct :=
  ⟨"SCB_SCR",
   [⟨"reserved0", 1⟩, ⟨"SLEEONEXIT", 1⟩, ⟨"SLEEPDEEP", 1⟩, ⟨"reserved1", 1⟩, ⟨"SEVONPEND", 1⟩,
    ⟨"reserved_tail", 27⟩]⟩

/-- Configuration and Control Register -/
def SCB_CCR : RegisterStruct :=
  ⟨"SCB_CCR",
   [⟨"NONBASETHRDENA", 1⟩, ⟨"USERSETMPEND", 1⟩, ⟨"reserved0", 1⟩, ⟨"UNALIGN_TRP", 1⟩,
    ⟨"DIV_0_TRP", 1⟩, ⟨"reserved1", 3⟩, ⟨"BFHFNMIGN", 1⟩, ⟨"STKALIGN", 1⟩, ⟨"reserved_tail", 22⟩]⟩

/-- System Handler Priority Register -/
def SCB_SHPR : RegisterStruct :=
  ⟨"SCB_SHPR",
   [⟨"PRI_0", 8⟩, ⟨"PRI_1", 8⟩, ⟨"PRI_2", 8⟩, ⟨"PRI_3", 8⟩]⟩

/-- System Handler Control and State Register -/
def SCB_SHCRS : RegisterStruct :=
  ⟨"SCB_SHCRS",
   [⟨"MEMFAULTACT", 1⟩, ⟨"BUSFAULTACT", 1⟩, ⟨"reserved0", 1⟩, ⟨"USGFAULTACT", 1⟩,
    ⟨"reserved1", 3⟩, ⟨"SVCALLAVCT", 1⟩, ⟨"MONITORACT", 1⟩, ⟨"reserved2", 1⟩, ⟨"PENDSVACT", 1⟩,
    ⟨"SYSTICKACT", 1⟩, ⟨"USGFAULTPENDED", 1⟩, ⟨"MEMFAULTPENDED", 1⟩, ⟨"BUSFAULTPENDED", 1⟩,
    ⟨"SVCALLPENDED", 1⟩, ⟨"MEMFAULTENA", 1⟩, ⟨"BUSFAULTENA", 1⟩, ⟨"USGFAULTENA", 1⟩,
    ⟨"reserved_tail", 13⟩]⟩

/-- System Handler Control and State Register -/
def SCB_CFSR : RegisterStruct :=
  ⟨"SCB_CFSR",
   [⟨"MMFSR_IACCVIOL", 1⟩, ⟨"MMFSR_DACCVIOL", 1⟩, ⟨"reserved0", 1⟩, ⟨"MMFSR_MUNSTKERR", 1⟩,
    ⟨"MMFSR_MSTKERR", 1⟩, ⟨"reserved1", 2⟩, ⟨"MMFSR_MMARVALID", 1⟩, ⟨"BFSR_IBUSERR", 1⟩,
    ⟨"BFSR_PRECISERR", 1⟩, ⟨"BFSR_IMPRECISERR", 1⟩, ⟨"BFSR_UNSTKERR", 1⟩, ⟨"BFSR_STKERR", 1⟩,
    ⟨"reserved2", 2⟩, ⟨"BFSR_BFRVALID", 1⟩, ⟨"UFSR_UNDEFINSTR", 1⟩, ⟨"UFSR_INVSTATE", 1⟩,
    ⟨"UFSR_INVPC", 1⟩, ⟨"UFSR_NOCP", 1⟩, ⟨"reserved3", 4⟩, ⟨"UFSR_UNALIGNED", 1⟩,
    ⟨"UFSR_DIVBYZERO", 1⟩, ⟨"reserved_tail", 6⟩]⟩

/-- Hard Fault Status Register -/
def SCB_HFSR : RegisterStruct :=
  ⟨"SCB_HFSR",
   [⟨"reserved0", 1⟩, ⟨"VECTTBL", 1⟩, ⟨"reserved1", 28⟩, ⟨"FORCED", 1⟩, ⟨"DEBUGEVT", 1⟩]⟩

/-- Memory Management Fault Address Register -/
def SCB_MMFAR : RegisterStruct :=
  ⟨"SCB_MMFAR",
   [⟨"ADDRESS", 32⟩]⟩

/-- Bus Fault Address Register -/
def SCB_BFAR : RegisterStruct :=
  ⟨"SCB_BFAR",
   [⟨"ADDRESS", 32⟩]⟩

/-- System Control Block, first part -/
def SCBpart0 : BlockStruct :=
  ⟨"SCBpart0", none,
   [⟨"SCB_ACTLR", "ACTLR", none⟩]⟩

/-- System Control Block, second part -/
def SCBpart1 : BlockStruct :=
  ⟨"SCBpart1", none,
   [⟨"SCB_CPUID", "CPUID", none⟩, ⟨"SCB_ICSR", "ICSR", none⟩, ⟨"SCB_VTOR", "VTOR", none⟩,
    ⟨"SCB_AIRCR", "AIRCR", none⟩, ⟨"SCB_SCR", "SCR", none⟩, ⟨"SCB_CCR", "CCR", none⟩,
    ⟨"SCB_SHPR", "SHPR", some 3⟩, ⟨"SCB_SHCRS", "SHCRS", none⟩, ⟨"SCB_CFSR", "CFSR", none⟩,
    ⟨"SCB_HFSR", "HFSR", none⟩, ⟨"uint32_t", "reserved1", none⟩, ⟨"SCB_MMFAR", "MMFAR", none⟩,
    ⟨"SCB_BFAR", "BFAR", none⟩]⟩

/-- SysTick Control and Status Register -/
def SysTick_CTRL : RegisterStruct :=
  ⟨"SysTick_CTRL",
   [⟨"ENABLE", 1⟩, ⟨"TICKINT", 1⟩, ⟨"CLKSOURCE", 1⟩, ⟨"reserved0", 13⟩, ⟨"COUNTFLAG", 1⟩,
    ⟨"reserved_tail", 15⟩]⟩

/-- SysTick Reload Value Register -/
def SysTick_LOAD : RegisterStruct :=
  ⟨"SysTick_LOAD",
   [⟨"RELOAD", 24⟩, ⟨"reserved_tail", 8⟩]⟩

/-- SysTick Current Value Register -/
def SysTick_VAL : RegisterStruct :=
  ⟨"SysTick_VAL",
   [⟨"CURRENT", 24⟩, ⟨"reserved_tail", 8⟩]⟩

/-- SysTick Calibration Value Register -/
def SysTick_CALIB : RegisterStruct :=
  ⟨"SysTick_CALIB",
   [⟨"TENMS", 24⟩, ⟨"reserved0", 6⟩, ⟨"SKEW", 1⟩, ⟨"NOREF", 1⟩]⟩

/-- System Timer (SysTick) -/
def SysTick : BlockStruct :=
  ⟨"SysTick", none,
   [⟨"SysTick_CTRL", "CTRL", none⟩, ⟨"SysTick_LOAD", "LOAD", none⟩,
    ⟨"SysTick_VAL", "VAL", none⟩, ⟨"SysTick_CALIB", "CALIB", none⟩]⟩

/-- Interrupt Set-Enable Register -/
def NVIC_ISER : RegisterStruct :=
  ⟨"NVIC_ISER",
   [⟨"SETENA0", 1⟩, ⟨"SETENA1", 1⟩, ⟨"SETENA2", 1⟩, ⟨"SETENA3", 1⟩, ⟨"SETENA4", 1⟩,
    ⟨"SETENA5", 1⟩, ⟨"SETENA6", 1⟩, ⟨"SETENA7", 1⟩, ⟨"SETENA8", 1⟩, ⟨"SETENA9", 1⟩,
    ⟨"SETENA10", 1⟩, ⟨"SETENA11", 1⟩, ⟨"SETENA12", 1⟩, ⟨"SETENA13", 1⟩, ⟨"SETENA14", 1⟩,
    ⟨"SETENA15", 1⟩, ⟨"SETENA16", 1⟩, ⟨"SETENA17", 1⟩, ⟨"SETENA18", 1⟩, ⟨"SETENA19", 1⟩,
    ⟨"SETENA20", 1⟩, ⟨"SETENA21", 1⟩, ⟨"SETENA22", 1⟩, ⟨"SETENA23", 1⟩, ⟨"SETENA24", 1⟩,
    ⟨"SETENA25", 1⟩, ⟨"SETENA26", 1⟩, ⟨"SETENA27", 1⟩, ⟨"SETENA28", 1⟩, ⟨"SETENA29", 1⟩,
    ⟨"SETENA30", 1⟩, ⟨"SETENA31", 1⟩]⟩

/-- Interrupt Clear-Enable Register -/
def NVIC_ICER : RegisterStruct :=
  ⟨"NVIC_ICER",
   [⟨"CLRENA0", 1⟩, ⟨"CLRENA1", 1⟩, ⟨"CLRENA2", 1⟩, ⟨"CLRENA3", 1⟩, ⟨"CLRENA4", 1⟩,
    ⟨"CLRENA5", 1⟩, ⟨"CLRENA6", 1⟩, ⟨"CLRENA7", 1⟩, ⟨"CLRENA8", 1⟩, ⟨"CLRENA9", 1⟩,
    ⟨"CLRENA10", 1⟩, ⟨"CLRENA11", 1⟩, ⟨"CLRENA12", 1⟩, ⟨"CLRENA13", 1⟩, ⟨"CLRENA14", 1⟩,
    ⟨"CLRENA15", 1⟩, ⟨"CLRENA16", 1⟩, ⟨"CLRENA17", 1⟩, ⟨"CLRENA18", 1⟩, ⟨"CLRENA19", 1⟩,
    ⟨"CLRENA20", 1⟩, ⟨"CLRENA21", 1⟩, ⟨"CLRENA22", 1⟩, ⟨"CLRENA23", 1⟩, ⟨"CLRENA24", 1⟩,
    ⟨"CLRENA25", 1⟩, ⟨"CLRENA26", 1⟩, ⟨"CLRENA27", 1⟩, ⟨"CLRENA28", 1⟩, ⟨"CLRENA29", 1⟩,
    ⟨"CLRENA30", 1⟩, ⟨"CLRENA31", 1⟩]⟩

/-- Interrupt Set-Pending Register -/
def NVIC_ISPR : RegisterStruct :=
  ⟨"NVIC_ISPR",
   [⟨"SETPEND0", 1⟩, ⟨"SETPEND1", 1⟩, ⟨"SETPEND2", 1⟩, ⟨"SETPEND3", 1⟩, ⟨"SETPEND4", 1⟩,
    ⟨"SETPEND5", 1⟩, ⟨"SETPEND6", 1⟩, ⟨"SETPEND7", 1⟩, ⟨"SETPEND8", 1⟩, ⟨"SETPEND9", 1⟩,
    ⟨"SETPEND10", 1⟩, ⟨"SETPEND11", 1⟩, ⟨"SETPEND12", 1⟩, ⟨"SETPEND13", 1⟩, ⟨"SETPEND14", 1⟩,
    ⟨"SETPEND15", 1⟩, ⟨"SETPEND16", 1⟩, ⟨"SETPEND17", 1⟩, ⟨"SETPEND18", 1⟩, ⟨"SETPEND19", 1⟩,
    ⟨"SETPEND20", 1⟩, ⟨"SETPEND21", 1⟩, ⟨"SETPEND22", 1⟩, ⟨"SETPEND23", 1⟩, ⟨"SETPEND24", 1⟩,
    ⟨"SETPEND25", 1⟩, ⟨"SETPEND26", 1⟩, ⟨"SETPEND27", 1⟩, ⟨"SETPEND28", 1⟩, ⟨"SETPEND29", 1⟩,
    ⟨"SETPEND30", 1⟩, ⟨"SETPEND31", 1⟩]⟩

/-- Interrupt Clear-Pending Register -/
def NVIC_ICPR : RegisterStruct :=
  ⟨"NVIC_ICPR",
   [⟨"CLRPEND0", 1⟩, ⟨"CLRPEND1", 1⟩, ⟨"CLRPEND2", 1⟩, ⟨"CLRPEND3", 1⟩, ⟨"CLRPEND4", 1⟩,
    ⟨"CLRPEND5", 1⟩, ⟨"CLRPEND6", 1⟩, ⟨"CLRPEND7", 1⟩, ⟨"CLRPEND8", 1⟩, ⟨"CLRPEND9", 1⟩,
    ⟨"CLRPEND10", 1⟩, ⟨"CLRPEND11", 1⟩, ⟨"CLRPEND12", 1⟩, ⟨"CLRPEND13", 1⟩, ⟨"CLRPEND14", 1⟩,
    ⟨"CLRPEND15", 1⟩, ⟨"CLRPEND16", 1⟩, ⟨"CLRPEND17", 1⟩, ⟨"CLRPEND18", 1⟩, ⟨"CLRPEND19", 1⟩,
    ⟨"CLRPEND20", 1⟩, ⟨"CLRPEND21", 1⟩, ⟨"CLRPEND22", 1⟩, ⟨"CLRPEND23", 1⟩, ⟨"CLRPEND24", 1⟩,
    ⟨"CLRPEND25", 1⟩, ⟨"CLRPEND26", 1⟩, ⟨"CLRPEND27", 1⟩, ⟨"CLRPEND28", 1⟩, ⟨"CLRPEND29", 1⟩,
    ⟨"CLRPEND30", 1⟩, ⟨"CLRPEND31", 1⟩]⟩

/-- Interrupt Active Register -/
def NVIC_IABR : RegisterStruct :=
  ⟨"NVIC_IABR",
   [⟨"ACTIVE0", 1⟩, ⟨"ACTIVE1", 1⟩, ⟨"ACTIVE2", 1⟩, ⟨"ACTIVE3", 1⟩, ⟨"ACTIVE4", 1⟩,
    ⟨"ACTIVE5", 1⟩, ⟨"ACTIVE6", 1⟩, ⟨"ACTIVE7", 1⟩, ⟨"ACTIVE8", 1⟩, ⟨"ACTIVE9", 1⟩,
    ⟨"ACTIVE10", 1⟩, ⟨"ACTIVE11", 1⟩, ⟨"ACTIVE12", 1⟩, ⟨"ACTIVE13", 1⟩, ⟨"ACTIVE14", 1⟩,
    ⟨"ACTIVE15", 1⟩, ⟨"ACTIVE16", 1⟩, ⟨"ACTIVE17", 1⟩, ⟨"ACTIVE18", 1⟩, ⟨"ACTIVE19", 1⟩,
    ⟨"ACTIVE20", 1⟩, ⟨"ACTIVE21", 1⟩, ⟨"ACTIVE22", 1⟩, ⟨"ACTIVE23", 1⟩, ⟨"ACTIVE24", 1⟩,
    ⟨"ACTIVE25", 1⟩, ⟨"ACTIVE26", 1⟩, ⟨"ACTIVE27", 1⟩, ⟨"ACTIVE28", 1⟩, ⟨"ACTIVE29", 1⟩,
    ⟨"ACTIVE30", 1⟩, ⟨"ACTIVE31", 1⟩]⟩

/-- Interrupt Priority Register -/
def IPR : RegisterStruct :=
  ⟨"IPR",
   [⟨"IP0", 4⟩, ⟨"IP1", 4⟩, ⟨"IP2", 4⟩, ⟨"IP3", 4⟩, ⟨"IP4", 4⟩, ⟨"IP5", 4⟩, ⟨"IP6", 4⟩,
    ⟨"IP7", 4⟩]⟩

/-- Interrupt Priority Register -/
def NVIC_IPR : RegisterStruct :=
  ⟨"NVIC_IPR",
   [⟨"IP0", 4⟩, ⟨"IP1", 4⟩, ⟨"IP2", 4⟩, ⟨"IP3", 4⟩, ⟨"IP4", 4⟩, ⟨"IP5", 4⟩, ⟨"IP6", 4⟩,
    ⟨"IP7", 4⟩]⟩

/-- Software Trigger Interrupt Register -/
def NVIC_STIR : RegisterStruct :=
  ⟨"NVIC_STIR",
   [⟨"INTID", 9⟩, ⟨"reserved_tail", 23⟩]⟩

/-- Nested Vectored Interrupt Controller, first part -/
def NVICpart0 : BlockStruct :=
  ⟨"NVICpart0", none,
   [⟨"NVIC_ISER", "ISER", some 2⟩, ⟨"uint32_t", "reserved0", some 30⟩,
    ⟨"NVIC_ICER", "ICER", some 2⟩, ⟨"uint32_t", "reserved1", some 30⟩,
    ⟨"NVIC_ISPR", "ISPR", some 2⟩, ⟨"uint32_t", "reserved2", some 30⟩,
    ⟨"NVIC_ICPR", "ICPR", some 2⟩, ⟨"uint32_t", "reserved3", some 30⟩,
    ⟨"NVIC_IABR", "IABR", some 2⟩, ⟨"uint32_t", "reserved3", some 62⟩,
    ⟨"NVIC_IPR", "IPR", some 8⟩]⟩

/-- Nested Vectored Interrupt Controller, second part -/
def NVICpart1 : BlockStruct :=
  ⟨"NVICpart1", none,
   [⟨"NVIC_STIR", "STIR", none⟩]⟩

/-- MPU Type Register -/
def MPU_TYPE : RegisterStruct :=
  ⟨"MPU_TYPE",
   [⟨"SEPARATE", 1⟩, ⟨"reserved0", 7⟩, ⟨"DREGION", 8⟩, ⟨"IREGION", 8⟩, ⟨"reserved_tail", 8⟩]⟩

/-- MPU Control Register -/
def MPU_CTRL : RegisterStruct :=
  ⟨"MPU_CTRL",
   [⟨"ENABLE", 1⟩, ⟨"HFNMIENA", 1⟩, ⟨"PRIVDEFENA", 1⟩, ⟨"reserved_tail", 29⟩]⟩

/-- MPU Region Number Register -/
def MPU_RNR : RegisterStruct :=
  ⟨"MPU_RNR",
   [⟨"REGION", 8⟩, ⟨"reserved_tail", 24⟩]⟩

/-- MPU Region Base Address Register -/
def MPU_RBAR : RegisterStruct :=
  ⟨"MPU_RBAR",
   [⟨"REGION", 4⟩, ⟨"VALID", 1⟩, ⟨"reserved0", 3⟩, ⟨"ADDR", 24⟩]⟩

/-- MPU Region Attribute and Size Register -/
def MPU_RASR : RegisterStruct :=
  ⟨"MPU_RASR",
   [⟨"ENABLE", 1⟩, ⟨"SIZE", 5⟩, ⟨"reserved0", 2⟩, ⟨"SRD", 8⟩, ⟨"B", 1⟩, ⟨"C", 1⟩, ⟨"S", 1⟩,
    ⟨"TEX", 3⟩, ⟨"reserved1", 2⟩, ⟨"AP", 3⟩, ⟨"reserved2", 1⟩, ⟨"XN", 1⟩, ⟨"reserved_tail", 3⟩]⟩

/-- Memory Protection Unit -/
def MPU : BlockStruct :=
  ⟨"MPU", none,
   [⟨"MPU_TYPE", "TYPE", none⟩, ⟨"MPU_CTRL", "CTRL", none⟩, ⟨"MPU_RNR", "RNR", none⟩,
    ⟨"MPU_RBAR", "RBAR", none⟩, ⟨"MPU_RASR", "RASR", none⟩, ⟨"MPU_RBAR", "RBAR_A1", none⟩,
    ⟨"MPU_RASR", "RASR_A1", none⟩, ⟨"MPU_RBAR", "RBAR_A2", none⟩,
    ⟨"MPU_RASR", "RASR_A2", none⟩, ⟨"MPU_RBAR", "RBAR_A3", none⟩, ⟨"MPU_RASR", "RASR_A3", none⟩]⟩

/-- Register structs of the header, in declaration order. -/
def registers : List RegisterStruct :=
  [SCB_ACTLR, SCB_CPUID, SCB_ICSR, SCB_VTOR, SCB_AIRCR, SCB_SCR, SCB_CCR, SCB_SHPR, SCB_SHCRS,
   SCB_CFSR, SCB_HFSR, SCB_MMFAR, SCB_BFAR, SysTick_CTRL, SysTick_LOAD, SysTick_VAL,
   SysTick_CALIB, NVIC_ISER, NVIC_ICER, NVIC_ISPR, NVIC_ICPR, NVIC_IABR, IPR, NVIC_IPR,
   NVIC_STIR, MPU_TYPE, MPU_CTRL, MPU_RNR, MPU_RBAR, MPU_RASR]

/-- Block structs of the header, in declaration order. -/
def blocks : List BlockStruct :=
  [SCBpart0, SCBpart1, SysTick, NVICpart0, NVICpart1, MPU]

end CM3

/-! ## Bit layout of a register struct -/

/-- A bit-field together with the bit offset it gets in its register. -/
structure PlacedField where
  name : String
  offset : Nat
  width : Nat
  deriving DecidableEq

/-- Bit-fields are allocated in declaration order, each one directly after
the previous one, the first at bit `start`. -/
def placeFrom : Nat → List BitField → List PlacedField
  | _, [] => []
  | start, f :: fs => ⟨f.name, start, f.width⟩ :: placeFrom (start + f.width) fs

/-- Members of a register struct with their bit offsets, the first at bit 0. -/
def RegisterStruct.placed (r : RegisterStruct) : List PlacedField :=
  placeFrom 0 r.fields

/-- Sum of the declared widths of a register struct. -/
def RegisterStruct.totalWidth (r : RegisterStruct) : Nat :=
  (r.fields.map BitField.width).sum

/-- Bit `b` lies in the span `[offset, offset + width)` of the placed field. -/
def PlacedField.covers (p : PlacedField) (b : Nat) : Bool :=
  decide (p.offset ≤ b) && decide (b < p.offset + p.width)

/-- Number of members of the register struct whose span contains bit `b`. -/
def RegisterStruct.coverCount (r : RegisterStruct) (b : Nat) : Nat :=
  (r.placed.filter fun p => p.covers b).length

/-- Every register struct of the two headers. -/
def allRegisters : List RegisterStruct :=
  CM0plus.registers ++ CM3.registers

/-- Every block struct of the two headers. -/
def allBlocks : List BlockStruct :=
  CM0plus.blocks ++ CM3.blocks

/-! ## Filler names -/

/-- Remove the leading characters `pre` from `cs`, when `cs` starts with them. -/
def stripLeading : List Char → List Char → Option (List Char)
  | [], cs => some cs
  | _ :: _, [] => none
  | p :: ps, c :: cs => if p = c then stripLeading ps cs else none

/-- A non-empty run of decimal digits. -/
def isDecimal (cs : List Char) : Bool :=
  !cs.isEmpty && cs.all Char.isDigit

/-- The member name is `reserved<N>` for a decimal number `N`, or
`reserved_tail`: the names the headers give to padding. -/
def isFillerName (s : String) : Bool :=
  s == "reserved_tail" ||
    match stripLeading "reserved".toList s.toList with
    | some ds => isDecimal ds
    | none => false

/-- Real fields and reserved padding. -/
inductive FieldKind where
  | Real
  | Reserved
  deriving DecidableEq

/-- Kind of a struct member, read off its name. -/
def kindOfName (n : String) : FieldKind :=
  if isFillerName n then .Reserved else .Real

/-- Shape `(kind, offset, width)` of every member of a register struct, in
declaration order. -/
def RegisterStruct.shape (r : RegisterStruct) : List (FieldKind × Nat × Nat) :=
  r.placed.map fun p => (kindOfName p.name, p.offset, p.width)

/-- Members of a register struct that are not padding, with their offsets. -/
def RegisterStruct.realPlaced (r : RegisterStruct) : List PlacedField :=
  r.placed.filter fun p => !isFillerName p.name

/-- Padding members of a register struct as half-open bit ranges `(lo, hi)`. -/
def RegisterStruct.fillerRanges (r : RegisterStruct) : List (Nat × Nat) :=
  (r.placed.filter fun p => isFillerName p.name).map fun p => (p.offset, p.offset + p.width)

/-- No two consecutive members of the list are both padding. -/
def noAdjacentFillers : List PlacedField → Bool
  | p :: q :: rest =>
      !(isFillerName p.name && isFillerName q.name) && noAdjacentFillers (q :: rest)
  | _ => true

/-- The last member of the register struct is padding. -/
def RegisterStruct.hasTrailingFiller (r : RegisterStruct) : Bool :=
  match r.placed.getLast? with
  | some p => isFillerName p.name
  | none => false

/-- End bit of the last real field of the register struct, 0 when it has no
real field. -/
def RegisterStruct.lastRealEnd (r : RegisterStruct) : Nat :=
  match r.realPlaced.getLast? with
  | some p => p.offset + p.width
  | none => 0

/-! ## Register synthesis

The generator that emitted the headers is not part of the sources; the
synthesis of section 4.1 of the specification is modelled here. -/

/-- Modelled from the spec: `BitSpan`, a bit-offset/width pair (section 3). -/
structure BitSpan where
  offset : Nat
  width : Nat
  deriving DecidableEq

/-- Modelled from the spec: `FieldLayout` (section 3); a `Reserved` field has
no name. -/
structure FieldLayout where
  name : Option String
  span : BitSpan
  kind : FieldKind
  deriving DecidableEq

/-- Modelled from the spec: `RegisterLayout` (section 3). -/
structure RegisterLayout where
  unit_width : Nat
  fields : List FieldLayout
  deriving DecidableEq

/-- Modelled from the spec: a field `{name, bit_offset, bit_width}` of a
register of the `PeripheralModel` (section 3). -/
structure ModelField where
  name : String
  bit_offset : Nat
  bit_width : Nat
  deriving DecidableEq

/-- Modelled from the spec: the error kinds of section 7.  `OverlapError`
carries the names of the two conflicting fields, the earlier one first. -/
inductive LayoutError where
  | OverlapError (first second : String)
  | OverflowError
  | AmbiguousArrayError
  | MalformedModelError
  deriving DecidableEq

/-- Modelled from the spec: insertion of one field into a list sorted by
`bit_offset`, before the first field whose offset is not smaller. -/
def insertByOffset (f : ModelField) : List ModelField → List ModelField
  | [] => [f]
  | g :: gs =>
      if f.bit_offset ≤ g.bit_offset then f :: g :: gs else g :: insertByOffset f gs

/-- Modelled from the spec: "sort input fields by `bit_offset`" (section 4.1),
as a stable insertion sort. -/
def sortByOffset : List ModelField → List ModelField
  | [] => []
  | f :: fs => insertByOffset f (sortByOffset fs)

/-- Modelled from the spec: the synthesized `Reserved` field spanning
`[lo, hi)`. -/
def reservedField (lo hi : Nat) : FieldLayout :=
  ⟨none, ⟨lo, hi - lo⟩, .Reserved⟩

/-- Modelled from the spec: the `Real` field appended for an input field. -/
def realField (f : ModelField) : FieldLayout :=
  ⟨some f.name, ⟨f.bit_offset, f.bit_width⟩, .Real⟩

/-- Modelled from the spec: the left-to-right walk of section 4.1 over the
sorted fields.  `cursor` is the first bit not yet covered and `last` the field
that set it.  A field that starts after the cursor is preceded by a `Reserved`
field `[cursor, bit_offset)`; a field that starts before the cursor fails with
`OverlapError` naming `last` and the field; after the last field a trailing
`Reserved` field fills `[cursor, unit_width)`, and `cursor > unit_width` fails
with `OverflowError`. -/
def walk (unit_width : Nat) :
    Nat → Option ModelField → List ModelField → Except LayoutError (List FieldLayout)
  | cursor, _, [] =>
      if cursor < unit_width then .ok [reservedField cursor unit_width]
      else if cursor > unit_width then .error .OverflowError
      else .ok []
  | cursor, last, f :: fs =>
      if f.bit_offset < cursor then
        .error (.OverlapError (match last with | some p => p.name | none => "") f.name)
      else
        match walk unit_width (f.bit_offset + f.bit_width) (some f) fs with
        | .error e => .error e
        | .ok rest =>
            if cursor < f.bit_offset then
              .ok (reservedField cursor f.bit_offset :: realField f :: rest)
            else .ok (realField f :: rest)

/-- Modelled from the spec: RegisterLayout synthesis (section 4.1): sort the
fields by `bit_offset`, then walk them from cursor 0.  An error returns no
layout. -/
def synthesize (unit_width : Nat) (fields : List ModelField) :
    Except LayoutError RegisterLayout :=
  match walk unit_width 0 none (sortByOffset fields) with
  | .error e => .error e
  | .ok fs => .ok ⟨unit_width, fs⟩

/-- Shape `(kind, offset, width)` of every field of a synthesized layout. -/
def RegisterLayout.shape (l : RegisterLayout) : List (FieldKind × Nat × Nat) :=
  l.fields.map fun f => (f.kind, f.span.offset, f.span.width)

/-- Real fields of a register struct as input fields of the synthesis, with
the bit offsets they have in the struct. -/
def RegisterStruct.modelFields (r : RegisterStruct) : List ModelField :=
  r.realPlaced.map fun p => ⟨p.name, p.offset, p.width⟩

/-- Shape of the layout synthesized from the real fields of a register struct
for a 32-bit unit, `none` when the synthesis fails. -/
def RegisterStruct.synthesizedShape (r : RegisterStruct) :
    Option (List (FieldKind × Nat × Nat)) :=
  match synthesize 32 r.modelFields with
  | .ok l => some l.shape
  | .error _ => none

/-! ## Byte layout of a block struct -/

/-- A header: its register structs and its block structs. -/
structure Header where
  registers : List RegisterStruct
  blocks : List BlockStruct

/-- The header CM0plus.h. -/
def CM0plus.header : Header :=
  ⟨CM0plus.registers, CM0plus.blocks⟩

/-- The header CM3.h. -/
def CM3.header : Header :=
  ⟨CM3.registers, CM3.blocks⟩

/-- Both headers. -/
def headers : List Header :=
  [CM0plus.header, CM3.header]

/-- Size in bytes of a member type under `#pragma pack(push,1)`: 4 for
`uint32_t`, and for a register struct the bytes its bit-fields fill. -/
def Header.sizeofType (h : Header) (ty : String) : Nat :=
  if ty = "uint32_t" then 4
  else
    match h.registers.find? fun r => r.name == ty with
    | some r => (r.totalWidth + 7) / 8
    | none => 0

/-- Number of elements of a block entry: the array length, 1 for a scalar. -/
def BlockEntry.elems (e : BlockEntry) : Nat :=
  e.count.getD 1

/-- Size in bytes of a block entry. -/
def Header.entryBytes (h : Header) (e : BlockEntry) : Nat :=
  h.sizeofType e.ty * e.elems

/-- A reserved filler entry: `uint32_t reservedN;` or `uint32_t reservedN[k];`. -/
def BlockEntry.isFiller (e : BlockEntry) : Bool :=
  e.ty == "uint32_t" && isFillerName e.name

/-- Size in bytes of a block struct: its entries are packed. -/
def Header.blockBytes (h : Header) (b : BlockStruct) : Nat :=
  (b.entries.map h.entryBytes).sum

/-- Entries with their byte offsets, the first at `start`, each one directly
after the previous one. -/
def Header.offsetsFrom (h : Header) : Nat → List BlockEntry → List (String × Nat)
  | _, [] => []
  | start, e :: es => (e.name, start) :: h.offsetsFrom (start + h.entryBytes e) es

/-- Entry names of a block struct with their byte offsets from the block start. -/
def Header.entryOffsets (h : Header) (b : BlockStruct) : List (String × Nat) :=
  h.offsetsFrom 0 b.entries

/-- Byte offset of the entry called `n` in the block struct. -/
def Header.offsetOf (h : Header) (b : BlockStruct) (n : String) : Option Nat :=
  ((h.entryOffsets b).find? fun q => q.1 == n).map Prod.snd

/-- Address range `(first, one past last)` of a block struct placed at the base
address of its comment. -/
def Header.blockRange (h : Header) (b : BlockStruct) : Option (Nat × Nat) :=
  b.base.map fun a => (a, a + h.blockBytes b)

/-- Two half-open ranges share no address. -/
def rangesDisjoint (x y : Nat × Nat) : Prop :=
  x.2 ≤ y.1 ∨ y.2 ≤ x.1

instance (x y : Nat × Nat) : Decidable (rangesDisjoint x y) := by
  unfold rangesDisjoint; infer_instance

/-- Peripheral a block struct belongs to: the struct name without a trailing
`part<N>`. -/
def peripheralOf (blockName : String) : String :=
  let rev := blockName.toList.reverse
  let body := rev.dropWhile Char.isDigit
  match stripLeading "part".toList.reverse body with
  | some rest => if body.length < rev.length then String.mk rest.reverse else blockName
  | none => blockName

/-- Total size in bytes of the declared (non-filler) registers of all the
blocks of one peripheral. -/
def Header.declaredBytes (h : Header) (periph : String) : Nat :=
  ((h.blocks.filter fun b => peripheralOf b.name == periph).map fun b =>
    ((b.entries.filter fun e => !e.isFiller).map h.entryBytes).sum).sum

/-- Sizes in bytes of the filler entries of a block struct, in order. -/
def Header.fillerSizes (h : Header) (b : BlockStruct) : List Nat :=
  (b.entries.filter fun e => e.isFiller).map h.entryBytes

/-- Member names of a register struct, in declaration order. -/
def RegisterStruct.memberNames (r : RegisterStruct) : List String :=
  r.fields.map BitField.name

/-- Member names of a block struct, in declaration order. -/
def BlockStruct.memberNames (b : BlockStruct) : List String :=
  b.entries.map BlockEntry.name

/-! ## Overlap predicates for the input of the synthesis -/

/-- Some field of the list starts before the end of the field that precedes
it in the list. -/
def AdjacentOverlap (l : List ModelField) : Prop :=
  ∃ pre a b post, l = pre ++ a :: b :: post ∧ b.bit_offset < a.bit_offset + a.bit_width

/-- Two fields at different positions of the list have the same `bit_offset`. -/
def SharedOffset (l : List ModelField) : Prop :=
  ∃ (i j : Nat) (a b : ModelField), i < j ∧ l[i]? = some a ∧ l[j]? = some b ∧ a.bit_offset = b.bit_offset

/-- No field of the list starts before the end of its predecessor, the first
one not before `cursor`. -/
def NoOverlapFrom : Nat → List ModelField → Prop
  | _, [] => True
  | cursor, f :: fs => cursor ≤ f.bit_offset ∧ NoOverlapFrom (f.bit_offset + f.bit_width) fs

/-- Modelled from the spec: the register `{A: bits[0:8), B: bits[4:8)}` of the
overlap-detection property (section 8). -/
def overlapExample : List ModelField :=
  [⟨"A", 0, 8⟩, ⟨"B", 4, 4⟩]

/-! ## Numbered names and lookups -/

/-- Value of a run of decimal digits. -/
def decimalValue (cs : List Char) : Nat :=
  cs.foldl (fun n c => 10 * n + (c.toNat - 48)) 0

/-- The number `N` when `name` is `base` followed by the decimal number `N`. -/
def indexAfter (base name : String) : Option Nat :=
  match stripLeading base.toList name.toList with
  | some ds => if isDecimal ds then some (decimalValue ds) else none
  | none => none

/-- Members of a register struct named `base<N>`, each with its number `N`,
in declaration order. -/
def RegisterStruct.indexedFields (r : RegisterStruct) (base : String) :
    List (Nat × PlacedField) :=
  r.placed.filterMap fun p => (indexAfter base p.name).map fun i => (i, p)

/-- The placed field lies entirely within byte `i` of its register, bits
`[8i, 8i+8)`. -/
def PlacedField.withinByte (p : PlacedField) (i : Nat) : Prop :=
  8 * i ≤ p.offset ∧ p.offset + p.width ≤ 8 * i + 8

instance (p : PlacedField) (i : Nat) : Decidable (p.withinByte i) := by
  unfold PlacedField.withinByte; infer_instance

/-- The register struct of the header that is called `ty`. -/
def Header.registerOf (h : Header) (ty : String) : Option RegisterStruct :=
  h.registers.find? fun r => r.name == ty

/-- The first entry of the block struct that is called `n`. -/
def BlockStruct.entryNamed (b : BlockStruct) (n : String) : Option BlockEntry :=
  b.entries.find? fun e => e.name == n

/-- Address of the entry called `n` of a block struct placed at the base
address of its comment. -/
def Header.addressOf (h : Header) (b : BlockStruct) (n : String) : Option Nat :=
  match b.base, h.offsetOf b n with
  | some a, some off => some (a + off)
  | _, _ => none

/-- Arrays of real (non-filler) registers of a block struct, as
`(name, element count)`, in declaration order. -/
def BlockStruct.realArrays (b : BlockStruct) : List (String × Nat) :=
  b.entries.filterMap fun e =>
    if e.isFiller then none else e.count.map fun k => (e.name, k)

/-- Scalar real (non-filler) entries of a block struct, as `(type, name)`, in
declaration order. -/
def BlockStruct.realScalars (b : BlockStruct) : List (String × String) :=
  b.entries.filterMap fun e =>
    if e.isFiller then none
    else match e.count with
      | none => some (e.ty, e.name)
      | some _ => none

/-- Number of interrupt-priority fields of a block: the element count of its
entry `IPR` times the number of fields `IP<N>` in the register struct of that
entry. -/
def Header.priorityFieldCount (h : Header) (b : BlockStruct) : Option Nat :=
  match b.entryNamed "IPR" with
  | some e =>
    match h.registerOf e.ty with
    | some r => some (e.elems * (r.indexedFields "IP").length)
    | none => none
  | none => none

/-- Number of interrupt enable bits of a block: the element count of its entry
`ISER` times the number of bit-fields in the register struct of that entry. -/
def Header.enableBitCount (h : Header) (b : BlockStruct) : Option Nat :=
  match b.entryNamed "ISER" with
  | some e =>
    match h.registerOf e.ty with
    | some r => some (e.elems * r.fields.length)
    | none => none
  | none => none

/-! ## Theorems -/

/-- C1: every register struct of CM0plus.h and CM3.h has only fields of width
at least 1, its widths sum to exactly 32, and with the fields laid out in
declaration order from bit 0 every bit of `[0,32)` lies in exactly one field
while no field reaches past bit 32. -/
theorem register_bits_total_tiling :
    ∀ r ∈ allRegisters,
      (∀ f ∈ r.fields, 1 ≤ f.width) ∧
      r.totalWidth = 32 ∧
      (∀ p ∈ r.placed, p.offset + p.width ≤ 32) ∧
      (∀ b < 32, r.coverCount b = 1) := by
  decide!

/-- Witness for C1 at `SCB_CCR` of CM0plus.h. -/
theorem register_bits_total_tiling_witness :
    CM0plus.SCB_CCR ∈ allRegisters ∧
      ((∀ f ∈ CM0plus.SCB_CCR.fields, 1 ≤ f.width) ∧
        CM0plus.SCB_CCR.totalWidth = 32 ∧
        (∀ p ∈ CM0plus.SCB_CCR.placed, p.offset + p.width ≤ 32) ∧
        (∀ b < 32, CM0plus.SCB_CCR.coverCount b = 1)) :=
  ⟨by decide, register_bits_total_tiling CM0plus.SCB_CCR (by decide)⟩

/-- A successful synthesis returns a layout of the requested unit width. -/
theorem synthesize_unit_width {u : Nat} {fs : List ModelField} {l : RegisterLayout}
    (h : synthesize u fs = .ok l) : l.unit_width = u := by
  unfold synthesize at h
  split at h
  · cases h
  · cases h; rfl

/-- Reading `synthesizedShape` back as a successful run of `synthesize`. -/
theorem synthesizedShape_some {r : RegisterStruct} {sh : List (FieldKind × Nat × Nat)}
    (h : r.synthesizedShape = some sh) :
    ∃ l, synthesize 32 r.modelFields = .ok l ∧ l.unit_width = 32 ∧ l.shape = sh := by
  unfold RegisterStruct.synthesizedShape at h
  split at h
  · rename_i l hl
    exact ⟨l, hl, synthesize_unit_width hl, Option.some.inj h⟩
  · cases h

/-- C2: for every register struct of both headers, the section 4.1 synthesis
run on its real fields (members not named `reserved<N>` or `reserved_tail`)
with unit width 32 succeeds and yields exactly the struct's sequence of
`(kind, offset, width)`; no two padding members are adjacent, and the struct
ends in padding if and only if its last real field ends before bit 32.  For
`SCB_CCR` of CM0plus.h the padding is `[0,3)`, `[4,9)`, `[10,32)`. -/
theorem reserved_padding_matches_synthesis :
    (∀ r ∈ allRegisters,
      (∃ l, synthesize 32 r.modelFields = .ok l ∧ l.unit_width = 32 ∧ l.shape = r.shape) ∧
      noAdjacentFillers r.placed = true ∧
      (r.hasTrailingFiller = true ↔ r.lastRealEnd < 32)) ∧
    CM0plus.SCB_CCR.fillerRanges = [(0, 3), (4, 9), (10, 32)] := by
  have key : ∀ r ∈ allRegisters,
      r.synthesizedShape = some r.shape ∧
      noAdjacentFillers r.placed = true ∧
      (r.hasTrailingFiller = true ↔ r.lastRealEnd < 32) := by
    decide!
  refine ⟨fun r hr => ?_, by decide!⟩
  obtain ⟨h1, h2, h3⟩ := key r hr
  exact ⟨synthesizedShape_some h1, h2, h3⟩

/-- Witness for C2 at `SCB_ICSR` of CM3.h, whose member `reserved_for_debug`
counts as a real field. -/
theorem reserved_padding_matches_synthesis_witness :
    CM3.SCB_ICSR ∈ allRegisters ∧
      ((∃ l, synthesize 32 CM3.SCB_ICSR.modelFields = .ok l ∧ l.unit_width = 32 ∧
          l.shape = CM3.SCB_ICSR.shape) ∧
        noAdjacentFillers CM3.SCB_ICSR.placed = true ∧
        (CM3.SCB_ICSR.hasTrailingFiller = true ↔ CM3.SCB_ICSR.lastRealEnd < 32)) :=
  ⟨by decide, reserved_padding_matches_synthesis.1 CM3.SCB_ICSR (by decide)⟩

/-- C3: evaluation of the member names at the two structs that repeat one.
`SCB_AIRCR` of CM0plus.h declares `reserved0` twice (bits `[0,1)` and
`[3,15)`) and `NVICpart0` of CM3.h declares `reserved3` twice (`reserved3[30]`
and `reserved3[62]`); in every other struct of the two headers the member names
are pairwise distinct. -/
theorem member_names_repeated :
    CM0plus.SCB_AIRCR ∈ allRegisters ∧
    CM0plus.SCB_AIRCR.memberNames.count "reserved0" = 2 ∧
    CM0plus.SCB_AIRCR.placed =
      [⟨"reserved0", 0, 1⟩, ⟨"VECTCLRACTIVE", 1, 1⟩, ⟨"SYSRESETREQ", 2, 1⟩,
       ⟨"reserved0", 3, 12⟩, ⟨"ENDIANESS", 15, 1⟩, ⟨"VECTKEY", 16, 16⟩] ∧
    CM3.NVICpart0 ∈ allBlocks ∧
    CM3.NVICpart0.memberNames.count "reserved3" = 2 ∧
    CM3.NVICpart0.memberNames =
      ["ISER", "reserved0", "ICER", "reserved1", "ISPR", "reserved2", "ICPR", "reserved3",
       "IABR", "reserved3", "IPR"] ∧
    (∀ r ∈ allRegisters, r ≠ CM0plus.SCB_AIRCR → r.memberNames.Nodup) ∧
    (∀ b ∈ allBlocks, b ≠ CM3.NVICpart0 → b.memberNames.Nodup) := by
  decide!

/-- C4: every register struct of the two headers without a real field is a
single member, padding of width 32 at bit 0 covering bits `[0,32)`; and
`SCB_ACTLR` of CM0plus.h is a register struct without a real field. -/
theorem zero_field_register_single_filler :
    (∀ r ∈ allRegisters, r.realPlaced = [] →
      r.fields.length = 1 ∧ r.shape = [(FieldKind.Reserved, 0, 32)] ∧
      r.fillerRanges = [(0, 32)]) ∧
    (CM0plus.SCB_ACTLR ∈ allRegisters ∧ CM0plus.SCB_ACTLR.realPlaced = []) := by
  decide!

/-- Witness for C4 at `SCB_ACTLR` of CM0plus.h. -/
theorem zero_field_register_single_filler_witness :
    (CM0plus.SCB_ACTLR ∈ allRegisters ∧ CM0plus.SCB_ACTLR.realPlaced = []) ∧
      (CM0plus.SCB_ACTLR.fields.length = 1 ∧
        CM0plus.SCB_ACTLR.shape = [(FieldKind.Reserved, 0, 32)] ∧
        CM0plus.SCB_ACTLR.fillerRanges = [(0, 32)]) :=
  ⟨⟨by decide, by decide⟩,
    zero_field_register_single_filler.1 CM0plus.SCB_ACTLR (by decide) (by decide)⟩

/-- C5, as stated, fails: `reserved0[31]` of `NVICpart0` in CM0plus.h is a
filler entry of 124 bytes while the declared registers of NVIC total 48
bytes. -/
theorem filler_exceeds_declared_total :
    CM0plus.NVICpart0 ∈ CM0plus.header.blocks ∧
    (⟨"uint32_t", "reserved0", some 31⟩ : BlockEntry) ∈ CM0plus.NVICpart0.entries ∧
    (⟨"uint32_t", "reserved0", some 31⟩ : BlockEntry).isFiller = true ∧
    CM0plus.header.entryBytes ⟨"uint32_t", "reserved0", some 31⟩ = 124 ∧
    CM0plus.header.declaredBytes (peripheralOf CM0plus.NVICpart0.name) = 48 ∧
    CM0plus.header.declaredBytes (peripheralOf CM0plus.NVICpart0.name) <
      CM0plus.header.entryBytes ⟨"uint32_t", "reserved0", some 31⟩ ∧
    ¬ (∀ h ∈ headers, ∀ b ∈ h.blocks, ∀ e ∈ b.entries, e.isFiller = true →
        h.entryBytes e ≤ h.declaredBytes (peripheralOf b.name)) := by
  decide!

/-- C5, amended: in every block struct of both headers other than `NVICpart0`
no filler entry is larger than the declared registers of the block's
peripheral; `NVICpart0` keeps its gaps as fillers of 124, 124, 124 and 380 bytes
against 48 declared bytes (CM0plus.h) and of 120, 120, 120, 120 and 248 bytes
against 76 declared bytes (CM3.h); the gap between `SCBpart0` and `SCBpart1`
of CM0plus.h, where SCB is split, is 3316 bytes against 44 declared bytes. -/
theorem filler_sizes_against_declared_total :
    (∀ h ∈ headers, ∀ b ∈ h.blocks, b.name ≠ "NVICpart0" →
      ∀ e ∈ b.entries, e.isFiller = true →
        h.entryBytes e ≤ h.declaredBytes (peripheralOf b.name)) ∧
    (CM0plus.header.fillerSizes CM0plus.NVICpart0 = [124, 124, 124, 380] ∧
      CM0plus.header.declaredBytes "NVIC" = 48) ∧
    (CM3.header.fillerSizes CM3.NVICpart0 = [120, 120, 120, 120, 248] ∧
      CM3.header.declaredBytes "NVIC" = 76) ∧
    (CM0plus.header.blockRange CM0plus.SCBpart0 = some (0xE000E008, 0xE000E00C) ∧
      CM0plus.SCBpart1.base = some (0xE000E00C + 3316) ∧
      CM0plus.header.declaredBytes "SCB" = 44) := by
  decide!

/-- C6: placed at the base addresses of their comments, the five block structs
of CM0plus.h occupy the listed address ranges, these ranges are pairwise
disjoint, and `SCBpart0` ends at or before the base of `SCBpart1`. -/
theorem CM0plus_blocks_disjoint :
    CM0plus.blocks.map (fun b => (b.name, CM0plus.header.blockRange b)) =
      [("SCBpart0", some (0xE000E008, 0xE000E00C)),
       ("SCBpart1", some (0xE000ED00, 0xE000ED2C)),
       ("SYST", some (0xE000E010, 0xE000E020)),
       ("NVICpart0", some (0xE000E100, 0xE000E420)),
       ("MPU", some (0xE000ED90, 0xE000EDA4))] ∧
    (CM0plus.blocks.filterMap CM0plus.header.blockRange).Pairwise rangesDisjoint ∧
    (∃ x y, CM0plus.header.blockRange CM0plus.SCBpart0 = some x ∧
      CM0plus.header.blockRange CM0plus.SCBpart1 = some y ∧ x.2 ≤ y.1) := by
  refine ⟨by decide!, by decide!,
    ⟨(0xE000E008, 0xE000E00C), (0xE000ED00, 0xE000ED2C), by decide!, by decide!, by decide!⟩⟩

/-- Array lengths of all block entries, as a decidable check. -/
theorem array_counts_checked :
    ∀ b ∈ allBlocks, ∀ e ∈ b.entries, e.count.all (fun k => decide (2 ≤ k)) = true := by
  decide!

/-- C7: every array-typed entry of a block struct of either header has at
least two elements. -/
theorem array_count_at_least_two :
    ∀ b ∈ allBlocks, ∀ e ∈ b.entries, ∀ k, e.count = some k → 2 ≤ k := by
  intro b hb e he k hk
  have h := array_counts_checked b hb e he
  rw [hk] at h
  simpa using h

/-- Witness for C7 at `IPR[8]` of `NVICpart0` in CM0plus.h. -/
theorem array_count_at_least_two_witness :
    (CM0plus.NVICpart0 ∈ allBlocks ∧
      (⟨"NVIC_IPR", "IPR", some 8⟩ : BlockEntry) ∈ CM0plus.NVICpart0.entries) ∧ 2 ≤ 8 :=
  ⟨⟨by decide, by decide⟩,
    array_count_at_least_two CM0plus.NVICpart0 (by decide) ⟨"NVIC_IPR", "IPR", some 8⟩
      (by decide) 8 rfl⟩

/-- C8: each of `NVIC_ISER`, `NVIC_ICER`, `NVIC_ISPR`, `NVIC_ICPR` of both
headers and `NVIC_IABR` of CM3.h has exactly 32 members, and its member number
`i` (from 0) is named by the common base followed by the decimal `i`, sits at
bit offset `i` and has width 1. -/
theorem enable_bit_runs :
    ∀ rb ∈ [(CM0plus.NVIC_ISER, "SETENA"), (CM0plus.NVIC_ICER, "CLRENA"),
            (CM0plus.NVIC_ISPR, "SETPEND"), (CM0plus.NVIC_ICPR, "CLRPEND"),
            (CM3.NVIC_ISER, "SETENA"), (CM3.NVIC_ICER, "CLRENA"),
            (CM3.NVIC_ISPR, "SETPEND"), (CM3.NVIC_ICPR, "CLRPEND"),
            (CM3.NVIC_IABR, "ACTIVE")],
      rb.1.fields.length = 32 ∧
      ∀ i < 32, rb.1.placed[i]? = some ⟨rb.2 ++ toString i, i, 1⟩ := by
  decide!

/-- Witness for C8 at `NVIC_IABR` of CM3.h. -/
theorem enable_bit_runs_witness :
    CM3.NVIC_IABR.fields.length = 32 ∧
      ∀ i < 32, CM3.NVIC_IABR.placed[i]? = some ⟨"ACTIVE" ++ toString i, i, 1⟩ :=
  enable_bit_runs (CM3.NVIC_IABR, "ACTIVE") (by decide)

/-- C10: evaluation of the byte offsets in `SCBpart1`.  In CM0plus.h `SHPR2`,
`SHPR3` and `SHCSR` are at 0x1C, 0x20 and 0x24, and `DFSR` follows `SHCSR`
directly at 0x28, the only filler of the block being the word `reserved0` at
0x18; in CM3.h the filler word `reserved1` sits at 0x30 between `HFSR` (0x2C)
and `MMFAR` (0x34). -/
theorem SCBpart1_entry_offsets :
    CM0plus.header.entryOffsets CM0plus.SCBpart1 =
      [("CPUID", 0x00), ("ICSR", 0x04), ("VTOR", 0x08), ("AIRCR", 0x0C), ("SCR", 0x10),
       ("CCR", 0x14), ("reserved0", 0x18), ("SHPR2", 0x1C), ("SHPR3", 0x20),
       ("SHCSR", 0x24), ("DFSR", 0x28)] ∧
    CM0plus.header.offsetOf CM0plus.SCBpart1 "DFSR" = some 0x28 ∧
    CM0plus.SCBpart1.base = some 0xE000ED00 ∧
    CM0plus.header.fillerSizes CM0plus.SCBpart1 = [4] ∧
    CM3.header.offsetOf CM3.SCBpart1 "HFSR" = some 0x2C ∧
    CM3.header.offsetOf CM3.SCBpart1 "reserved1" = some 0x30 ∧
    CM3.header.offsetOf CM3.SCBpart1 "MMFAR" = some 0x34 := by
  decide!

/-! ### Overlap detection -/

/-- Inserting a field keeps the fields, up to order. -/
theorem insertByOffset_perm (f : ModelField) (l : List ModelField) :
    (insertByOffset f l).Perm (f :: l) := by
  induction l with
  | nil => exact List.Perm.refl _
  | cons g gs ih =>
    unfold insertByOffset
    split
    · exact List.Perm.refl _
    · exact ((List.perm_cons g).2 ih).trans (List.Perm.swap f g gs)

/-- Sorting keeps the fields, up to order. -/
theorem sortByOffset_perm (l : List ModelField) : (sortByOffset l).Perm l := by
  induction l with
  | nil => exact List.Perm.refl _
  | cons f fs ih =>
    unfold sortByOffset
    exact (insertByOffset_perm f _).trans ((List.perm_cons f).2 ih)

/-- An error of the walk over the remaining fields is the error of the walk. -/
theorem walk_cons_error (u cursor : Nat) (last : Option ModelField) (f : ModelField)
    (fs : List ModelField) (e : LayoutError) (hc : ¬ f.bit_offset < cursor)
    (h : walk u (f.bit_offset + f.bit_width) (some f) fs = .error e) :
    walk u cursor last (f :: fs) = .error e := by
  simp only [walk, hc, if_false, h]

/-- The walk fails at the first field that starts before the end of its
predecessor, naming the predecessor and the field. -/
theorem walk_first_overlap (u : Nat) (a b : ModelField) (post : List ModelField) :
    ∀ (pre : List ModelField) (cursor : Nat) (last : Option ModelField),
      NoOverlapFrom cursor (pre ++ [a]) → b.bit_offset < a.bit_offset + a.bit_width →
      walk u cursor last (pre ++ a :: b :: post) = .error (.OverlapError a.name b.name) := by
  intro pre
  induction pre with
  | nil =>
    intro cursor last hno hlt
    have hc : ¬ a.bit_offset < cursor := Nat.not_lt.mpr hno.1
    simp only [List.nil_append, walk, hc, hlt, if_false, if_true]
  | cons p ps ih =>
    intro cursor last hno hlt
    have hc : ¬ p.bit_offset < cursor := Nat.not_lt.mpr hno.1
    have hrec := ih (p.bit_offset + p.bit_width) (some p) hno.2 hlt
    exact walk_cons_error u cursor last p _ _ hc hrec

/-- A list that is not overlap-free from `cursor` either starts before
`cursor` or holds a first field that starts before the end of its predecessor. -/
theorem first_overlap_of_not_noOverlap :
    ∀ (l : List ModelField) (cursor : Nat), ¬ NoOverlapFrom cursor l →
      (∃ f rest, l = f :: rest ∧ f.bit_offset < cursor) ∨
      ∃ pre a b post, l = pre ++ a :: b :: post ∧ NoOverlapFrom cursor (pre ++ [a]) ∧
        b.bit_offset < a.bit_offset + a.bit_width := by
  intro l
  induction l with
  | nil => intro cursor h; exact absurd trivial h
  | cons f fs ih =>
    intro cursor h
    by_cases hc : cursor ≤ f.bit_offset
    · have hrest : ¬ NoOverlapFrom (f.bit_offset + f.bit_width) fs := fun hr => h ⟨hc, hr⟩
      rcases ih _ hrest with ⟨g, rest, hfs, hg⟩ | ⟨pre, a, b, post, hfs, hno, hlt⟩
      · exact Or.inr ⟨[], f, g, rest, by simp [hfs], ⟨hc, trivial⟩, hg⟩
      · exact Or.inr ⟨f :: pre, a, b, post, by simp [hfs], ⟨hc, hno⟩, hlt⟩
    · exact Or.inl ⟨f, fs, rfl, Nat.lt_of_not_le hc⟩

/-- A list with an adjacent overlap is overlap-free from no cursor. -/
theorem not_noOverlap_of_adjacentOverlap {l : List ModelField} (h : AdjacentOverlap l) :
    ∀ cursor, ¬ NoOverlapFrom cursor l := by
  obtain ⟨pre, a, b, post, rfl, hlt⟩ := h
  induction pre with
  | nil =>
    intro cursor hno
    exact absurd hno.2.1 (Nat.not_le.mpr hlt)
  | cons p ps ih =>
    intro cursor hno
    exact ih _ hno.2

/-- In an overlap-free list of fields of width at least 1 the offsets increase
strictly. -/
theorem offsets_increase_of_noOverlap :
    ∀ (l : List ModelField) (cursor : Nat), NoOverlapFrom cursor l →
      (∀ f ∈ l, 1 ≤ f.bit_width) →
      (∀ f ∈ l, cursor ≤ f.bit_offset) ∧
        l.Pairwise (fun x y => x.bit_offset ≠ y.bit_offset) := by
  intro l
  induction l with
  | nil => intro cursor _ _; exact ⟨by simp, List.Pairwise.nil⟩
  | cons f fs ih =>
    intro cursor hno hw
    have hwf : 1 ≤ f.bit_width := hw f (List.mem_cons_self f fs)
    obtain ⟨hge, hpw⟩ := ih _ hno.2 (fun g hg => hw g (List.mem_cons_of_mem f hg))
    refine ⟨?_, List.pairwise_cons.2 ⟨?_, hpw⟩⟩
    · intro g hg
      rcases List.mem_cons.1 hg with rfl | hg
      · exact hno.1
      · have := hge g hg
        have := hno.1
        omega
    · intro g hg
      have := hge g hg
      omega

/-- Two fields of width at least 1 with the same offset give an adjacent
overlap after sorting. -/
theorem adjacentOverlap_of_sharedOffset {fields : List ModelField}
    (hw : ∀ f ∈ fields, 1 ≤ f.bit_width) (hs : SharedOffset fields) :
    AdjacentOverlap (sortByOffset fields) := by
  by_contra hna
  have hno : NoOverlapFrom 0 (sortByOffset fields) := by
    by_contra hn
    rcases first_overlap_of_not_noOverlap _ 0 hn with ⟨f, rest, _, hf⟩ | ⟨pre, a, b, post, hl, _, hlt⟩
    · exact absurd hf (Nat.not_lt_zero _)
    · exact hna ⟨pre, a, b, post, hl, hlt⟩
  have hperm := sortByOffset_perm fields
  have hw2 : ∀ f ∈ sortByOffset fields, 1 ≤ f.bit_width :=
    fun f hf => hw f (hperm.mem_iff.1 hf)
  have hpw := (offsets_increase_of_noOverlap _ 0 hno hw2).2
  have hpw2 : fields.Pairwise (fun x y => x.bit_offset ≠ y.bit_offset) :=
    (hperm.pairwise_iff (fun h => Ne.symm h)).1 hpw
  obtain ⟨i, j, a, b, hij, hi, hj, hab⟩ := hs
  obtain ⟨hi2, rfl⟩ := List.getElem?_eq_some.1 hi
  obtain ⟨hj2, rfl⟩ := List.getElem?_eq_some.1 hj
  exact List.pairwise_iff_getElem.1 hpw2 i j hi2 hj2 hij hab

/-- The synthesis fails with `OverlapError`, naming the first field that
starts before the end of its predecessor and that predecessor, as soon as the
sorted fields have an adjacent overlap. -/
theorem synthesize_of_adjacentOverlap (u : Nat) (fields : List ModelField)
    (h : AdjacentOverlap (sortByOffset fields)) :
    ∃ pre a b post, sortByOffset fields = pre ++ a :: b :: post ∧
      NoOverlapFrom 0 (pre ++ [a]) ∧ b.bit_offset < a.bit_offset + a.bit_width ∧
      synthesize u fields = .error (.OverlapError a.name b.name) := by
  rcases first_overlap_of_not_noOverlap _ 0 (not_noOverlap_of_adjacentOverlap h 0) with
    ⟨f, rest, _, hf⟩ | ⟨pre, a, b, post, hl, hno, hlt⟩
  · exact absurd hf (Nat.not_lt_zero _)
  · refine ⟨pre, a, b, post, hl, hno, hlt, ?_⟩
    have hwalk := walk_first_overlap u a b post pre 0 none hno hlt
    unfold synthesize
    rw [hl, hwalk]

/-- C9: the synthesis of section 4.1 returns `OverlapError` naming both
conflicting fields, and so no layout, whenever after sorting by `bit_offset`
some field starts before the end of the preceding field; this is the case
whenever two fields (of width at least 1) have the same `bit_offset`; and for
`{A: bits[0:8), B: bits[4:8)}` with unit width 32 the result is
`OverlapError` naming `A` and `B`. -/
theorem overlap_detection :
    (∀ (unit_width : Nat) (fields : List ModelField),
      AdjacentOverlap (sortByOffset fields) →
      ∃ pre a b post, sortByOffset fields = pre ++ a :: b :: post ∧
        NoOverlapFrom 0 (pre ++ [a]) ∧ b.bit_offset < a.bit_offset + a.bit_width ∧
        synthesize unit_width fields = .error (.OverlapError a.name b.name)) ∧
    (∀ (unit_width : Nat) (fields : List ModelField),
      (∀ f ∈ fields, 1 ≤ f.bit_width) → SharedOffset fields →
      AdjacentOverlap (sortByOffset fields) ∧
      ∃ pre a b post, sortByOffset fields = pre ++ a :: b :: post ∧
        NoOverlapFrom 0 (pre ++ [a]) ∧ b.bit_offset < a.bit_offset + a.bit_width ∧
        synthesize unit_width fields = .error (.OverlapError a.name b.name)) ∧
    synthesize 32 overlapExample = .error (.OverlapError "A" "B") := by
  refine ⟨synthesize_of_adjacentOverlap, fun u fields hw hs => ?_, rfl⟩
  have h := adjacentOverlap_of_sharedOffset hw hs
  exact ⟨h, synthesize_of_adjacentOverlap u fields h⟩

/-- Witness for C9: the overlap example has an adjacent overlap after sorting,
and two fields at the same offset give one as well. -/
theorem overlap_detection_witness :
    (AdjacentOverlap (sortByOffset overlapExample) ∧
      ∃ pre a b post, sortByOffset overlapExample = pre ++ a :: b :: post ∧
        NoOverlapFrom 0 (pre ++ [a]) ∧ b.bit_offset < a.bit_offset + a.bit_width ∧
        synthesize 32 overlapExample = .error (.OverlapError a.name b.name)) ∧
    (((∀ f ∈ [(⟨"A", 4, 4⟩ : ModelField), ⟨"B", 4, 2⟩], 1 ≤ f.bit_width) ∧
        SharedOffset [⟨"A", 4, 4⟩, ⟨"B", 4, 2⟩]) ∧
      ∃ first second,
        synthesize 32 [⟨"A", 4, 4⟩, ⟨"B", 4, 2⟩] = .error (.OverlapError first second)) := by
  have h1 : AdjacentOverlap (sortByOffset overlapExample) :=
    ⟨[], ⟨"A", 0, 8⟩, ⟨"B", 4, 4⟩, [], by decide, by decide⟩
  have h2 : ∀ f ∈ [(⟨"A", 4, 4⟩ : ModelField), ⟨"B", 4, 2⟩], 1 ≤ f.bit_width := by decide
  have h3 : SharedOffset [⟨"A", 4, 4⟩, ⟨"B", 4, 2⟩] :=
    ⟨0, 1, ⟨"A", 4, 4⟩, ⟨"B", 4, 2⟩, by decide, by decide, by decide, by decide⟩
  refine ⟨⟨h1, overlap_detection.1 32 overlapExample h1⟩, ⟨h2, h3⟩, ?_⟩
  obtain ⟨_, _, a, b, _, _, _, _, hres⟩ := overlap_detection.2.1 32 _ h2 h3
  exact ⟨a.name, b.name, hres⟩

/-! ### Block offsets and priority fields -/

/-- C11: in `NVICpart0` of both headers `ISER`, `ICER`, `ISPR`, `ICPR` and
`IPR` begin at byte offsets 0x000, 0x080, 0x100, 0x180 and 0x300, `IABR` of
CM3.h begins at 0x200, the block is 0x320 bytes long in both headers, and with
the base 0xE000E100 of CM0plus.h `IPR[0]` is at address 0xE000E400. -/
theorem NVICpart0_entry_offsets :
    CM0plus.header.entryOffsets CM0plus.NVICpart0 =
      [("ISER", 0x000), ("reserved0", 0x004), ("ICER", 0x080), ("reserved1", 0x084),
       ("ISPR", 0x100), ("reserved2", 0x104), ("ICPR", 0x180), ("reserved3", 0x184),
       ("IPR", 0x300)] ∧
    CM3.header.entryOffsets CM3.NVICpart0 =
      [("ISER", 0x000), ("reserved0", 0x008), ("ICER", 0x080), ("reserved1", 0x088),
       ("ISPR", 0x100), ("reserved2", 0x108), ("ICPR", 0x180), ("reserved3", 0x188),
       ("IABR", 0x200), ("reserved3", 0x208), ("IPR", 0x300)] ∧
    (∀ h ∈ [(CM0plus.header, CM0plus.NVICpart0), (CM3.header, CM3.NVICpart0)],
      h.1.offsetOf h.2 "ISER" = some 0x000 ∧ h.1.offsetOf h.2 "ICER" = some 0x080 ∧
      h.1.offsetOf h.2 "ISPR" = some 0x100 ∧ h.1.offsetOf h.2 "ICPR" = some 0x180 ∧
      h.1.offsetOf h.2 "IPR" = some 0x300 ∧ h.1.blockBytes h.2 = 0x320) ∧
    CM3.header.offsetOf CM3.NVICpart0 "IABR" = some 0x200 ∧
    CM0plus.NVICpart0.base = some 0xE000E100 ∧
    CM0plus.header.addressOf CM0plus.NVICpart0 "IPR" = some 0xE000E400 := by
  decide!

/-- C12, as stated, fails: `NVIC_IPR` of CM3.h holds eight priority fields, and
its field `IP1` occupies bits `[4,8)`, which lie in byte 0 and not in byte 1. -/
theorem CM3_priority_fields_not_per_byte :
    CM3.NVIC_IPR ∈ CM3.header.registers ∧
    (1, (⟨"IP1", 4, 4⟩ : PlacedField)) ∈ CM3.NVIC_IPR.indexedFields "IP" ∧
    (⟨"IP1", 4, 4⟩ : PlacedField).withinByte 0 ∧
    (¬ (⟨"IP1", 4, 4⟩ : PlacedField).withinByte 1) ∧
    (CM3.NVIC_IPR.indexedFields "IP").length = 8 ∧
    (¬ ∀ ip ∈ CM3.NVIC_IPR.indexedFields "IP", ip.2.withinByte ip.1) := by
  decide!

/-- C12, amended: in CM0plus.h `NVIC_IPR` holds exactly the four priority
fields `IP0..IP3`, and `IPi` lies entirely within byte `i`, at bits
`[8i+6, 8i+8)`; in CM3.h `NVIC_IPR` holds exactly the eight priority fields
`IP0..IP7`, and `IPi` is the nibble at bits `[4i, 4i+4)`. -/
theorem priority_field_positions :
    ((CM0plus.NVIC_IPR.indexedFields "IP").map Prod.fst = [0, 1, 2, 3] ∧
      (∀ ip ∈ CM0plus.NVIC_IPR.indexedFields "IP",
        ip.2.withinByte ip.1 ∧ ip.2.offset = 8 * ip.1 + 6 ∧ ip.2.width = 2)) ∧
    ((CM3.NVIC_IPR.indexedFields "IP").map Prod.fst = [0, 1, 2, 3, 4, 5, 6, 7] ∧
      (∀ ip ∈ CM3.NVIC_IPR.indexedFields "IP",
        ip.2.offset = 4 * ip.1 ∧ ip.2.width = 4) ∧
      CM3.NVIC_IPR.realPlaced.length = 8 ∧ CM3.NVIC_IPR.fields.length = 8) := by
  decide!

/-- C13, as stated, fails: `ISER[2]` of `NVICpart0` in CM3.h is a folded array
of a real register with two elements. -/
theorem CM3_folds_run_of_two :
    CM3.NVICpart0 ∈ allBlocks ∧
    (⟨"NVIC_ISER", "ISER", some 2⟩ : BlockEntry) ∈ CM3.NVICpart0.entries ∧
    (⟨"NVIC_ISER", "ISER", some 2⟩ : BlockEntry).isFiller = false ∧
    ("ISER", 2) ∈ CM3.NVICpart0.realArrays ∧
    (¬ ∀ b ∈ allBlocks, ∀ a ∈ b.realArrays, 3 ≤ a.2) := by
  decide!

/-- C13, amended: no folded array of real registers in a block struct of either
header has fewer than 2 elements; CM0plus.h has `IPR[8]` as its only array of
real registers and keeps `SHPR2` and `SHPR3` as two scalar members; CM3.h folds
the runs of two registers `ISER[2]`, `ICER[2]`, `ISPR[2]`, `ICPR[2]`,
`IABR[2]`, its other arrays of real registers being `SHPR[3]` and `IPR[8]`. -/
theorem real_register_arrays :
    (∀ b ∈ allBlocks, ∀ a ∈ b.realArrays, 2 ≤ a.2) ∧
    CM0plus.blocks.map (fun b => (b.name, b.realArrays)) =
      [("SCBpart0", []), ("SCBpart1", []), ("SYST", []), ("NVICpart0", [("IPR", 8)]),
       ("MPU", [])] ∧
    (("SCB_SHPR2", "SHPR2") ∈ CM0plus.SCBpart1.realScalars ∧
      ("SCB_SHPR3", "SHPR3") ∈ CM0plus.SCBpart1.realScalars) ∧
    CM3.blocks.map (fun b => (b.name, b.realArrays)) =
      [("SCBpart0", []), ("SCBpart1", [("SHPR", 3)]), ("SysTick", []),
       ("NVICpart0", [("ISER", 2), ("ICER", 2), ("ISPR", 2), ("ICPR", 2), ("IABR", 2),
         ("IPR", 8)]),
       ("NVICpart1", []), ("MPU", [])] := by
  decide!

/-- C14: in `NVICpart0` of each header the element count of `IPR` times the
number of `IP<N>` fields of `NVIC_IPR` equals the element count of `ISER` times
32, the number of fields of `NVIC_ISER`: `8*4 = 1*32` in CM0plus.h and
`8*8 = 2*32` in CM3.h. -/
theorem priority_fields_match_enable_bits :
    (∀ h ∈ [(CM0plus.header, CM0plus.NVICpart0), (CM3.header, CM3.NVICpart0)],
      h.1.priorityFieldCount h.2 = h.1.enableBitCount h.2 ∧
      (h.1.priorityFieldCount h.2).isSome = true) ∧
    (CM0plus.NVICpart0.entryNamed "IPR" = some ⟨"NVIC_IPR", "IPR", some 8⟩ ∧
      CM0plus.header.registerOf "NVIC_IPR" = some CM0plus.NVIC_IPR ∧
      (CM0plus.NVIC_IPR.indexedFields "IP").length = 4 ∧
      CM0plus.NVICpart0.entryNamed "ISER" = some ⟨"NVIC_ISER", "ISER", none⟩ ∧
      CM0plus.header.registerOf "NVIC_ISER" = some CM0plus.NVIC_ISER ∧
      CM0plus.NVIC_ISER.fields.length = 32 ∧
      CM0plus.header.priorityFieldCount CM0plus.NVICpart0 = some (8 * 4) ∧
      CM0plus.header.enableBitCount CM0plus.NVICpart0 = some (1 * 32)) ∧
    (CM3.NVICpart0.entryNamed "IPR" = some ⟨"NVIC_IPR", "IPR", some 8⟩ ∧
      CM3.header.registerOf "NVIC_IPR" = some CM3.NVIC_IPR ∧
      (CM3.NVIC_IPR.indexedFields "IP").length = 8 ∧
      CM3.NVICpart0.entryNamed "ISER" = some ⟨"NVIC_ISER", "ISER", some 2⟩ ∧
      CM3.header.registerOf "NVIC_ISER" = some CM3.NVIC_ISER ∧
      CM3.NVIC_ISER.fields.length = 32 ∧
      CM3.header.priorityFieldCount CM3.NVICpart0 = some (8 * 8) ∧
      CM3.header.enableBitCount CM3.NVICpart0 = some (2 * 32)) := by
  decide!

/-- C15: in `SCBpart1` of CM3.h the array `SHPR[3]` starts at 0x18 and is 12
bytes long (offsets 0x18..0x23), `SHCRS`, `CFSR`, `HFSR`, `MMFAR` and `BFAR`
begin at 0x24, 0x28, 0x2C, 0x34 and 0x38, the filler word `reserved1` is at
0x30, and the block is 0x3C bytes long. -/
theorem CM3_SCBpart1_entry_offsets :
    CM3.header.entryOffsets CM3.SCBpart1 =
      [("CPUID", 0x00), ("ICSR", 0x04), ("VTOR", 0x08), ("AIRCR", 0x0C), ("SCR", 0x10),
       ("CCR", 0x14), ("SHPR", 0x18), ("SHCRS", 0x24), ("CFSR", 0x28), ("HFSR", 0x2C),
       ("reserved1", 0x30), ("MMFAR", 0x34), ("BFAR", 0x38)] ∧
    CM3.SCBpart1.entryNamed "SHPR" = some ⟨"SCB_SHPR", "SHPR", some 3⟩ ∧
    CM3.header.entryBytes ⟨"SCB_SHPR", "SHPR", some 3⟩ = 12 ∧
    0x18 + CM3.header.entryBytes ⟨"SCB_SHPR", "SHPR", some 3⟩ = 0x23 + 1 ∧
    CM3.SCBpart1.entryNamed "reserved1" = some ⟨"uint32_t", "reserved1", none⟩ ∧
    CM3.header.fillerSizes CM3.SCBpart1 = [4] ∧
    CM3.header.blockBytes CM3.SCBpart1 = 0x3C := by
  decide!

/-- C16: in CM0plus.h the fields `PRI_<n>` are exactly `PRI_11`, `PRI_14` and
`PRI_15`; each is 2 bits wide, is declared in the register struct
`SCB_SHPR<n/4>` and occupies bits `[8*(n mod 4)+6, 8*(n mod 4)+8)`, the top two
bits of byte `n mod 4`; and every field `IP<i>` of `NVIC_IPR` of CM0plus.h
occupies bits `[8i+6, 8i+8)`, the same position within byte `i`. -/
theorem system_handler_priority_placement :
    (∀ n ∈ [11, 14, 15], ∃ r ∈ CM0plus.registers,
      r.name = "SCB_SHPR" ++ toString (n / 4) ∧
      (n, (⟨"PRI_" ++ toString n, 8 * (n % 4) + 6, 2⟩ : PlacedField)) ∈
        r.indexedFields "PRI_" ∧
      (⟨"PRI_" ++ toString n, 8 * (n % 4) + 6, 2⟩ : PlacedField).withinByte (n % 4)) ∧
    (CM0plus.registers.filterMap fun r =>
        if (r.indexedFields "PRI_").isEmpty then none
        else some (r.name, (r.indexedFields "PRI_").map Prod.fst)) =
      [("SCB_SHPR2", [11]), ("SCB_SHPR3", [14, 15])] ∧
    (∀ r ∈ CM0plus.registers, ∀ ip ∈ r.indexedFields "PRI_",
      r.name = "SCB_SHPR" ++ toString (ip.1 / 4) ∧
      ip.2.offset = 8 * (ip.1 % 4) + 6 ∧ ip.2.width = 2 ∧
      ip.2.offset + ip.2.width = 8 * (ip.1 % 4) + 8) ∧
    ((CM0plus.NVIC_IPR.indexedFields "IP").map Prod.fst = [0, 1, 2, 3] ∧
      ∀ ip ∈ CM0plus.NVIC_IPR.indexedFields "IP",
        ip.2.offset = 8 * ip.1 + 6 ∧ ip.2.width = 2 ∧
        ip.2.offset + ip.2.width = 8 * ip.1 + 8) := by
  decide!

end Svd2GhidraC
